/-
Verification of the Airspace-Copilot orchestration core against its
natural-language specification.

The development shallowly embeds the Python sources:
  * src/mcp-server/server.py   — snapshot store, cross-region locator, alerts
  * src/agents/ops_agent.py    — metrics and anomaly engine, summary builder
  * src/agents/traveler_agent.py — flight-context resolution and status
  * src/agents/crew_runner.py  — report compaction and the two-stage pipeline

Conventions of the embedding:
  * Python floats are modelled as rationals (ℚ); timestamps as integers (ℤ).
  * Python truthiness is modelled explicitly: `None`, `0`, `0.0`, `""`, empty
    containers are falsy, everything else truthy.
  * Python `str.strip()`, `str.upper()` and string ordering are modelled over
    the character list `String.data` (`pyStrip`, `pyUpper`, `pyStrLe`), which
    matches Python's per-character semantics on the ASCII data the system
    handles and evaluates inside the kernel.
  * Fallible operations return `Except`/`Option`; an HTTP error response is
    the `FetchError` type.
  * The reasoning-service (LLM) calls are opaque: their outputs enter the
    pipeline as plain string parameters.
-/
import Mathlib

set_option maxRecDepth 8192

namespace Airspace

/-! ### Python-semantics helpers -/

/-- Python truthiness of an optional float: `None` and `0.0` are falsy. -/
def truthyQ : Option ℚ → Bool
  | none => false
  | some q => q != 0

/-- Python truthiness of an optional integer: `None` and `0` are falsy. -/
def truthyZ : Option ℤ → Bool
  | none => false
  | some z => z != 0

/-- Python truthiness of an optional string: `None` and `""` are falsy. -/
def truthyS : Option String → Bool
  | none => false
  | some s => s != ""

/-- Python truthiness of an optional bool: `None` and `False` are falsy. -/
def truthyB : Option Bool → Bool
  | none => false
  | some b => b

/-- Python `a or b` on optional floats: `b` when `a` is falsy. -/
def pyOrQ (a b : Option ℚ) : Option ℚ := if truthyQ a then a else b

/-- Python `str.upper()` modelled over the character list (`Char.toUpper`
uppercases exactly the ASCII letters, which covers callsign data). -/
def pyUpper (s : String) : String := ⟨s.data.map Char.toUpper⟩

/-- Python `str.strip()` modelled over the character list: drop leading and
trailing whitespace. -/
def pyStrip (s : String) : String :=
  ⟨((s.data.dropWhile Char.isWhitespace).reverse.dropWhile Char.isWhitespace).reverse⟩

/-- Lexicographic (code-point) strict order on character lists, as Python
compares strings. -/
def charListLt : List Char → List Char → Bool
  | [], [] => false
  | [], _ :: _ => true
  | _ :: _, [] => false
  | a :: as, b :: bs =>
      if a.val < b.val then true
      else if b.val < a.val then false
      else charListLt as bs

/-- Python `a <= b` on strings (total code-point order). -/
def pyStrLe (a b : String) : Bool := !(charListLt b.data a.data)

/-! ### Data model (pydantic models of `src/mcp-server/server.py`)

`FlightState` is the pydantic model: `icao24` is required, the rest optional.
The agents receive states as the JSON emitted by the FastAPI endpoint, so
every key is present and optional fields carry `null` when absent. -/

/-- One aircraft's telemetry reading (pydantic `FlightState`). -/
structure FlightState where
  icao24 : String
  callsign : Option String := none
  origin_country : Option String := none
  time_position : Option ℤ := none
  last_contact : Option ℤ := none
  longitude : Option ℚ := none
  latitude : Option ℚ := none
  baro_altitude : Option ℚ := none
  on_ground : Option Bool := none
  velocity : Option ℚ := none
  true_track : Option ℚ := none
  vertical_rate : Option ℚ := none
  geo_altitude : Option ℚ := none
  squawk : Option String := none
  spi : Option Bool := none
  position_source : Option ℤ := none
deriving DecidableEq

/-- A region's snapshot file (pydantic `SnapshotResponse`). -/
structure Snapshot where
  region : String
  last_updated : String
  bounds : List (String × ℚ) := []
  states : List FlightState
deriving DecidableEq

/-- One stored alert (pydantic `Alert`). -/
structure Alert where
  id : String
  region : String
  callsign : Option String := none
  type : String
  severity : String
  message : String
  detected_at : String
deriving DecidableEq

/-- The shared alerts collection (pydantic `AlertsResponse`). -/
structure AlertsResponse where
  last_updated : String
  alerts : List Alert
deriving DecidableEq

/-! ### Snapshot store and cross-region locator (`src/mcp-server/server.py`)

The file-backed store is modelled as an association list from region id to
snapshot: one entry per snapshot file in the data directory.  An HTTP error
raised by the server (`HTTPException`) is a `FetchError.status`; transport
failures of the client are `FetchError.transport`. -/

/-- A failure surfaced to an agent through the HTTP client:
an HTTP error status, or a transport-level error. -/
inductive FetchError where
  | status (code : ℕ)
  | transport
deriving DecidableEq

/-- The on-disk content of the alerts file: absent, corrupt, or parsed. -/
inductive AlertsFile where
  | absent
  | corrupt
  | parsed (a : AlertsResponse)
deriving DecidableEq

/-- `_load_alerts`: missing file yields the default `{last_updated: "",
alerts: []}`; a file that fails to parse raises HTTP 500. -/
def loadAlerts : AlertsFile → Except FetchError AlertsResponse
  | .absent => .ok { last_updated := "", alerts := [] }
  | .corrupt => .error (.status 500)
  | .parsed a => .ok a

/-- `_list_regions`: the region ids of the snapshot files, sorted as Python's
`sorted` sorts strings (code-point lexicographic). -/
def listRegions (store : List (String × Snapshot)) : List String :=
  List.insertionSort (fun a b => pyStrLe a b = true) (store.map Prod.fst)

/-- `_load_snapshot` for a region whose file exists: the snapshot stored
under that region id (snapshot files have unique names, so the first match
is the match). -/
def loadSnapshot (store : List (String × Snapshot)) (region : String) :
    Option Snapshot :=
  (store.find? (fun p => p.fst == region)).map Prod.snd

/-- The callsign normalization of `_find_by_callsign`:
`callsign.strip().upper()`. -/
def normalizeCallsign (c : String) : String := pyUpper (pyStrip c)

/-- The match test of `_find_by_callsign`:
`(state.get("callsign") or "").strip().upper() == normalized`. -/
def matchesCallsign (normalized : String) (st : FlightState) : Bool :=
  pyUpper (pyStrip (st.callsign.getD "")) == normalized

/-- The result payload of `_find_by_callsign`:
`{"region": region, "snapshot": snapshot, "state": state}`. -/
structure FindPayload where
  region : String
  snapshot : Snapshot
  state : FlightState
deriving DecidableEq

/-- The search loop of `_find_by_callsign`: walk the sorted regions, load
each snapshot, and return the first state matching the normalized callsign.
The Python loop returns early; taking the head of all matches in loop order
is the same result. -/
def findNormalized (store : List (String × Snapshot)) (normalized : String) :
    Option FindPayload :=
  ((listRegions store).filterMap fun region =>
    (loadSnapshot store region).bind fun snapshot =>
      (snapshot.states.find? (matchesCallsign normalized)).map fun st =>
        ⟨region, snapshot, st⟩).head?

/-- `_find_by_callsign`: normalize, then search all regions. -/
def findByCallsign (store : List (String × Snapshot)) (callsign : String) :
    Option FindPayload :=
  findNormalized store (normalizeCallsign callsign)

/-! ### Metrics and anomaly engine (`src/agents/ops_agent.py`)

`analyze_region` pulls the snapshot over HTTP, so each state dict carries
every pydantic field (absent telemetry is `null`).  The pandas frame built
from such dicts therefore always has the `geo_altitude` and `velocity`
columns when at least one state exists, and `dropna().mean()` over a column
whose values are all null is numpy's mean of an empty selection: `NaN`. -/

/-- The value of a computed average: `None`, numpy `NaN`, or a number. -/
inductive MetricVal where
  | null
  | nan
  | num (q : ℚ)
deriving DecidableEq

/-- The metrics dict of `_compute_metrics`. -/
structure Metrics where
  aircraft : ℕ
  avg_altitude : MetricVal
  avg_velocity : MetricVal
deriving DecidableEq

/-- Round half to even, as Python's `round` ties-to-even. -/
def roundHalfEven (x : ℚ) : ℤ :=
  let f : ℤ := ⌊x⌋
  if x - f < 1/2 then f
  else if 1/2 < x - f then f + 1
  else if f % 2 = 0 then f else f + 1

/-- Python `round(x, 2)`. -/
def round2 (x : ℚ) : ℚ := (roundHalfEven (x * 100) : ℚ) / 100

/-- `frame[col].dropna().mean()` rounded to two places: drop the nulls, and
average what remains; the mean of an empty selection is `NaN`. -/
def columnAvg (vals : List (Option ℚ)) : MetricVal :=
  let xs := vals.filterMap id
  if xs.isEmpty then .nan
  else .num (round2 (xs.sum / (xs.length : ℚ)))

/-- `_compute_metrics` over the snapshot's states (the rows of the frame). -/
def computeMetrics (states : List FlightState) : Metrics :=
  if states.isEmpty then
    { aircraft := 0, avg_altitude := .null, avg_velocity := .null }
  else
    { aircraft := states.length
      avg_altitude := columnAvg (states.map (·.geo_altitude))
      avg_velocity := columnAvg (states.map (·.velocity)) }

/-- The value recorded in an anomaly: a float, an integer latency, or the
sentinel string. -/
inductive AnomalyValue where
  | rat (q : ℚ)
  | int (z : ℤ)
  | str (s : String)
deriving DecidableEq

/-- The `Anomaly` dataclass of `ops_agent.py`. -/
structure Anomaly where
  callsign : String
  issue : String
  value : AnomalyValue
deriving DecidableEq

/-- The callsign recorded in an anomaly:
`(state.get("callsign") or state.get("icao24") or "UNKNOWN").strip()` —
Python `or` selects the first truthy value and the whole result is
stripped (`icao24` is a required field, so its dict lookup yields it). -/
def pyCallsign (st : FlightState) : String :=
  pyStrip (if truthyS st.callsign then st.callsign.getD ""
           else if st.icao24 != "" then st.icao24 else "UNKNOWN")

/-- The velocity check of `_detect_anomalies`:
`if state.get("velocity") and state["velocity"] > 280` — the truthiness
test makes a present-but-zero velocity fail the guard. -/
def velocityAnomaly (cs : String) : Option ℚ → List Anomaly
  | some v => if v ≠ 0 ∧ v > 280 then [⟨cs, "High velocity", .rat v⟩] else []
  | none => []

/-- The altitude check of `_detect_anomalies`:
`if state.get("baro_altitude") is not None and state["baro_altitude"] < 300`. -/
def altitudeAnomaly (cs : String) : Option ℚ → List Anomaly
  | some b => if b < 300 then [⟨cs, "Low altitude", .rat b⟩] else []
  | none => []

/-- The staleness check of `_detect_anomalies`:
`if state.get("last_contact") and state.get("time_position")` (truthiness:
`None` and `0` fail) guarding `latency > 45`. -/
def staleAnomaly (cs : String) : Option ℤ → Option ℤ → List Anomaly
  | some lc, some tp =>
      if lc ≠ 0 ∧ tp ≠ 0 ∧ lc - tp > 45 then
        [⟨cs, "Stale telemetry", .int (lc - tp)⟩]
      else []
  | _, _ => []

/-- The coordinate check of `_detect_anomalies`:
`if not state.get("latitude") or not state.get("longitude")` — truthiness,
so a zero coordinate counts as missing. -/
def coordsAnomaly (cs : String) (lat lon : Option ℚ) : List Anomaly :=
  if !truthyQ lat ∨ !truthyQ lon then
    [⟨cs, "Missing coordinates", .str "n/a"⟩]
  else []

/-- The body of the `_detect_anomalies` loop for one state: the four checks
in program order, each appending its anomaly when its condition holds. -/
def anomaliesFor (st : FlightState) : List Anomaly :=
  let cs := pyCallsign st
  velocityAnomaly cs st.velocity ++ altitudeAnomaly cs st.baro_altitude ++
    staleAnomaly cs st.last_contact st.time_position ++
    coordsAnomaly cs st.latitude st.longitude

/-- `_detect_anomalies`: the loop accumulates each state's anomalies in
order into one list. -/
def detectAnomalies (states : List FlightState) : List Anomaly :=
  states.foldl (fun acc st => acc ++ anomaliesFor st) []

/-- Python truthiness of a metric value in `metrics.get(...)`: `None` is
falsy, `0.0` is falsy, `NaN` is truthy. -/
def truthyMetric : MetricVal → Bool
  | .null => false
  | .nan => true
  | .num q => q != 0

/-- Decimal rendering of a nonnegative rational with denominator dividing
100, as Python's `repr` prints such a float: at least one fractional digit,
a second one only when needed. -/
def fmtHundredths (q : ℚ) : String :=
  let cents : ℕ := (⌊q * 100⌋).toNat
  let whole := cents / 100
  let rem := cents % 100
  if rem % 10 == 0 then toString whole ++ "." ++ toString (rem / 10)
  else if rem < 10 then toString whole ++ ".0" ++ toString rem
  else toString whole ++ "." ++ toString rem

/-- Python `f"{x}"` for the float values that reach the summary (results of
`round(., 2)`, or `nan`). -/
def fmtMetric : MetricVal → String
  | .null => "None"
  | .nan => "nan"
  | .num q => if q < 0 then "-" ++ fmtHundredths (-q) else fmtHundredths q

/-- `_build_summary`: the first sentence always, the altitude and velocity
sentences guarded by `if metrics.get(...)` (truthiness), then the anomaly
count or the fixed no-anomaly sentence; joined with single spaces. -/
def buildSummary (region : String) (snapshot : Snapshot) (metrics : Metrics)
    (anomalies : List Anomaly) : String :=
  let lines := ["Region " ++ region ++ " has " ++ toString metrics.aircraft ++
    " tracked aircraft as of " ++ snapshot.last_updated ++ "."]
  let lines := if truthyMetric metrics.avg_altitude then
      lines ++ ["Average altitude: " ++ fmtMetric metrics.avg_altitude ++ " m."]
    else lines
  let lines := if truthyMetric metrics.avg_velocity then
      lines ++ ["Average velocity: " ++ fmtMetric metrics.avg_velocity ++ " m/s."]
    else lines
  let lines := if anomalies.isEmpty then
      lines ++ ["No anomalies detected in the last snapshot."]
    else
      lines ++ ["Detected " ++ toString anomalies.length ++
        " anomalies requiring follow-up."]
  String.intercalate " " lines

/-- The analysis dict returned by `analyze_region` (the snapshot argument
stands for the HTTP fetch `client.list_region_snapshot(region)` having
succeeded with that snapshot). -/
structure Analysis where
  region : String
  last_updated : String
  bounds : List (String × ℚ)
  metrics : Metrics
  anomalies : List Anomaly
  summary : String
deriving DecidableEq

/-- `analyze_region` on a fetched snapshot. -/
def analyzeRegion (region : String) (snapshot : Snapshot) : Analysis :=
  let states := snapshot.states
  let metrics := computeMetrics states
  let anomalies := detectAnomalies states
  { region := region
    last_updated := snapshot.last_updated
    bounds := snapshot.bounds
    metrics := metrics
    anomalies := anomalies
    summary := buildSummary region snapshot metrics anomalies }

/-! ### Traveler support agent (`src/agents/traveler_agent.py`) -/

/-- The flight-context dict of `get_flight_context`.  `state` is `none` when
the Python dict is the empty `{}` placeholder of the not-found branch. -/
structure FlightContext where
  region : Option String
  last_updated : Option String
  state : Option FlightState
  status : String
deriving DecidableEq

/-- `_derive_status`: empty state, on-ground, and the altitude/velocity
sentences; `geo_altitude or baro_altitude` and the `if altitude and
velocity` guard are Python truthiness. -/
def deriveStatus (state : Option FlightState) : String :=
  match state with
  | none => "No telemetry available."
  | some st =>
    if truthyB st.on_ground then "Aircraft is currently on the ground."
    else
      let altitude := pyOrQ st.geo_altitude st.baro_altitude
      if truthyQ altitude ∧ truthyQ st.velocity then
        "Aircraft cruising at approx " ++ toString (roundHalfEven (altitude.getD 0)) ++
          " m with ground speed " ++ toString (roundHalfEven (st.velocity.getD 0)) ++ " m/s."
      else if truthyQ altitude then
        "Aircraft altitude approx " ++ toString (roundHalfEven (altitude.getD 0)) ++ " m."
      else "Telemetry is partial but aircraft is airborne."

/-- The fixed context of the not-found branch of `get_flight_context`. -/
def notFoundContext : FlightContext :=
  { region := none
    last_updated := none
    state := none
    status := "Flight not found in latest snapshots. Please verify the callsign." }

/-- `get_flight_context`: an HTTP 404 from the lookup becomes the friendly
not-found context; any other lookup failure re-raises; a successful payload
is projected to region, snapshot timestamp, state and derived status. -/
def getFlightContext (lookup : String → Except FetchError FindPayload)
    (callsign : String) : Except FetchError FlightContext :=
  match lookup callsign with
  | .error (.status code) =>
      if code = 404 then .ok notFoundContext else .error (.status code)
  | .error .transport => .error .transport
  | .ok payload =>
      .ok { region := some payload.region
            last_updated := some payload.snapshot.last_updated
            state := some payload.state
            status := deriveStatus (some payload.state) }

/-! ### Report compaction and the two-stage pipeline
(`src/agents/crew_runner.py`) -/

/-- The compacted analysis payload built by `_compact_analysis`. -/
structure CompactAnalysis where
  region : String
  last_updated : String
  metrics : Metrics
  summary : String
  anomalies : List Anomaly
  alerts : List Alert
deriving DecidableEq

/-- `_compact_analysis`: keep region, last_updated, metrics and summary,
truncate anomalies to the first 15 and alerts to the first 10. -/
def compactAnalysis (analysis : Analysis) (alerts : AlertsResponse) :
    CompactAnalysis :=
  { region := analysis.region
    last_updated := analysis.last_updated
    metrics := analysis.metrics
    summary := analysis.summary
    anomalies := analysis.anomalies.take 15
    alerts := alerts.alerts.take 10 }

/-- The compacted flight payload built by `_compact_flight`. -/
structure CompactFlight where
  region : Option String
  last_updated : Option String
  status : Option String
  callsign : Option String
  icao24 : Option String
  latitude : Option ℚ
  longitude : Option ℚ
  altitude : Option ℚ
  velocity : Option ℚ
  on_ground : Option Bool
deriving DecidableEq

/-- `_compact_flight` on a flight context (`flight.get("state") or {}`
yields the empty dict exactly when `state` is empty, and every projection of
the empty dict is `None`); `altitude` is `geo_altitude or baro_altitude`. -/
def compactFlight (flight : FlightContext) : CompactFlight :=
  { region := flight.region
    last_updated := flight.last_updated
    status := some flight.status
    callsign := flight.state.bind (·.callsign)
    icao24 := flight.state.map (·.icao24)
    latitude := flight.state.bind (·.latitude)
    longitude := flight.state.bind (·.longitude)
    altitude := pyOrQ (flight.state.bind (·.geo_altitude))
      (flight.state.bind (·.baro_altitude))
    velocity := flight.state.bind (·.velocity)
    on_ground := flight.state.bind (·.on_ground) }

/-- The accumulating `GraphState` TypedDict of the LangGraph pipeline:
every key optional, absent keys are `none`. -/
structure GraphState where
  region : Option String := none
  callsign : Option String := none
  question : Option String := none
  ops_report : Option String := none
  ops_structured : Option Analysis := none
  traveler_response : Option String := none
  flight_context : Option CompactFlight := none
  alerts : Option AlertsResponse := none
  last_updated : Option String := none
  errors : Option (List String) := none
deriving DecidableEq

/-- A failure that aborts a pipeline node: a missing required state key
(Python `KeyError`), or a data fetch that raised. -/
inductive NodeErr where
  | keyError (key : String)
  | fetch (e : FetchError)
deriving DecidableEq

/-- The additions of the OPS stage: `dict(state)` plus the four keys it
writes. -/
def opsUpdate (state : GraphState) (report : String) (analysis : Analysis)
    (alertsResp : AlertsResponse) : GraphState :=
  { state with
    ops_report := some report
    ops_structured := some analysis
    alerts := some alertsResp
    last_updated := some analysis.last_updated }

/-- The additions of the TRAVELER stage: `dict(state)` plus the two keys it
writes. -/
def travelerUpdate (state : GraphState) (reply : String)
    (flight : CompactFlight) : GraphState :=
  { state with
    traveler_response := some reply
    flight_context := some flight }

/-- The `ops` node built by `create_ops_node`: read `state["region"]`,
analyze the region, fetch alerts, and return `dict(state)` extended with
`ops_report` (the reasoning call's output, opaque here), `ops_structured`
(the uncompacted analysis), `alerts` and `last_updated`.  The snapshot and
alerts arguments stand for the two store fetches having succeeded. -/
def opsNode (snapshotOf : String → Snapshot) (alertsResp : AlertsResponse)
    (report : String) (state : GraphState) : Except NodeErr GraphState :=
  match state.region with
  | none => .error (.keyError "region")
  | some region =>
      .ok (opsUpdate state report (analyzeRegion region (snapshotOf region))
        alertsResp)

/-- The `traveler` node built by `create_traveler_node`: read
`state["callsign"]`, resolve the flight context (propagating any error the
helper re-raises), compact it, and return `dict(state)` extended with
`traveler_response` (the reasoning call's output, opaque here) and
`flight_context`. -/
def travelerNode (lookup : String → Except FetchError FindPayload)
    (reply : String) (state : GraphState) : Except NodeErr GraphState :=
  match state.callsign with
  | none => .error (.keyError "callsign")
  | some callsign =>
      match getFlightContext lookup callsign with
      | .error e => .error (.fetch e)
      | .ok flight => .ok (travelerUpdate state reply (compactFlight flight))

/-- The five-key result of `run_crewai`. -/
structure PipelineResult where
  ops_report : Option String
  traveler_response : Option String
  ops_structured : Option Analysis
  flight_context : Option CompactFlight
  alerts : Option AlertsResponse
deriving DecidableEq

/-- `run_crewai`: seed the state with the three inputs, run `ops` then
`traveler` (the graph's only path), and project the five result keys. -/
def runPipeline (snapshotOf : String → Snapshot) (alertsResp : AlertsResponse)
    (lookup : String → Except FetchError FindPayload)
    (report reply : String) (region callsign question : String) :
    Except NodeErr PipelineResult :=
  let s0 : GraphState :=
    { region := some region, callsign := some callsign, question := some question }
  match opsNode snapshotOf alertsResp report s0 with
  | .error e => .error e
  | .ok s1 =>
      match travelerNode lookup reply s1 with
      | .error e => .error e
      | .ok s2 =>
          .ok { ops_report := s2.ops_report
                traveler_response := s2.traveler_response
                ops_structured := s2.ops_structured
                flight_context := s2.flight_context
                alerts := s2.alerts }

/-! ### Spec-side definitions

These definitions restate claims in the words of the specification, to be
compared with the code-derived definitions above. -/

/-- The velocity rule as the claim states it: "High velocity" iff velocity
is present and > 280. -/
def claimedVelocityAnomaly (cs : String) : Option ℚ → List Anomaly
  | some v => if v > 280 then [⟨cs, "High velocity", .rat v⟩] else []
  | none => []

/-- The staleness rule as the claim states it: "Stale telemetry" iff
last_contact and time_position are both present and their difference
exceeds 45. -/
def claimedStaleAnomaly (cs : String) : Option ℤ → Option ℤ → List Anomaly
  | some lc, some tp =>
      if lc - tp > 45 then [⟨cs, "Stale telemetry", .int (lc - tp)⟩] else []
  | _, _ => []

/-- The coordinate rule as the claim states it: "Missing coordinates" iff
latitude is missing or longitude is missing. -/
def claimedCoordsAnomaly (cs : String) (lat lon : Option ℚ) : List Anomaly :=
  if lat = none ∨ lon = none then
    [⟨cs, "Missing coordinates", .str "n/a"⟩]
  else []

/-- The four anomaly rules exactly as the claim states them (the altitude
rule's `is not None` check already is presence). -/
def claimedAnomalies (st : FlightState) : List Anomaly :=
  let cs := pyCallsign st
  claimedVelocityAnomaly cs st.velocity ++ altitudeAnomaly cs st.baro_altitude ++
    claimedStaleAnomaly cs st.last_contact st.time_position ++
    claimedCoordsAnomaly cs st.latitude st.longitude

/-- The coordinate rule of the amended claim: "Missing coordinates" iff
latitude or longitude is missing *or zero*. -/
def amendedCoordsAnomaly (cs : String) (lat lon : Option ℚ) : List Anomaly :=
  if (lat = none ∨ lat = some 0) ∨ (lon = none ∨ lon = some 0) then
    [⟨cs, "Missing coordinates", .str "n/a"⟩]
  else []

/-- The anomaly rules of the amended claim: velocity and altitude as the
claim states them; the staleness rule requires both timestamps present and
nonzero; the coordinate rule treats a zero coordinate as missing. -/
def amendedAnomalies (st : FlightState) : List Anomaly :=
  let cs := pyCallsign st
  claimedVelocityAnomaly cs st.velocity ++ altitudeAnomaly cs st.baro_altitude ++
    staleAnomaly cs st.last_contact st.time_position ++
    amendedCoordsAnomaly cs st.latitude st.longitude

/-- The callsign fallback chain exactly as the claim states it: the trimmed
callsign when the state has a (truthy) one, otherwise the state's `icao24`
as stored, otherwise the literal "UNKNOWN". -/
def claimedCallsign (st : FlightState) : String :=
  if truthyS st.callsign then pyStrip (st.callsign.getD "")
  else if st.icao24 != "" then st.icao24
  else "UNKNOWN"

/-- The fallback chain as the code computes it (the amended claim): the
strip applies to whichever value the chain selects, so a padded `icao24` is
recorded trimmed as well. -/
def amendedCallsign (st : FlightState) : String :=
  if truthyS st.callsign then pyStrip (st.callsign.getD "")
  else if st.icao24 != "" then pyStrip st.icao24
  else "UNKNOWN"

/-- The average as the claim states it: the rounded mean over the states
where the field is present, and null when the field is absent across all
states. -/
def claimedAvg (vals : List (Option ℚ)) : MetricVal :=
  if vals.filterMap id = [] then .null
  else .num (round2 ((vals.filterMap id).sum / ((vals.filterMap id).length : ℚ)))

/-- The metrics as the claim states them. -/
def claimedMetrics (states : List FlightState) : Metrics :=
  if states = [] then { aircraft := 0, avg_altitude := .null, avg_velocity := .null }
  else
    { aircraft := states.length
      avg_altitude := claimedAvg (states.map (·.geo_altitude))
      avg_velocity := claimedAvg (states.map (·.velocity)) }

/-- The average as the code computes it (the amended claim): null only for
the zero-state snapshot; when states exist but the field has a value in
none of them, the average is numpy's mean of an empty selection — `NaN`,
not null. -/
def amendedAvg (vals : List (Option ℚ)) : MetricVal :=
  if vals = [] then .null
  else if vals.filterMap id = [] then .nan
  else .num (round2 ((vals.filterMap id).sum / ((vals.filterMap id).length : ℚ)))

/-- The metrics of the amended claim. -/
def amendedMetrics (states : List FlightState) : Metrics :=
  { aircraft := states.length
    avg_altitude := amendedAvg (states.map (·.geo_altitude))
    avg_velocity := amendedAvg (states.map (·.velocity)) }

/-- The summary composition exactly as the claim states it: count-plus-
timestamp sentence, altitude sentence iff `avg_altitude` is non-null,
velocity sentence iff `avg_velocity` is non-null, then the anomaly-count or
fixed no-anomaly sentence. -/
def claimedSummary (region : String) (snapshot : Snapshot) (metrics : Metrics)
    (anomalies : List Anomaly) : String :=
  String.intercalate " "
    (["Region " ++ region ++ " has " ++ toString metrics.aircraft ++
        " tracked aircraft as of " ++ snapshot.last_updated ++ "."] ++
      (if metrics.avg_altitude ≠ .null then
        ["Average altitude: " ++ fmtMetric metrics.avg_altitude ++ " m."] else []) ++
      (if metrics.avg_velocity ≠ .null then
        ["Average velocity: " ++ fmtMetric metrics.avg_velocity ++ " m/s."] else []) ++
      (if anomalies ≠ [] then
        ["Detected " ++ toString anomalies.length ++ " anomalies requiring follow-up."]
      else ["No anomalies detected in the last snapshot."]))

/-- The summary composition as the code produces it (the amended claim):
the altitude and velocity sentences are included iff the metric is truthy —
non-null and nonzero (`NaN` counts as truthy). -/
def amendedSummary (region : String) (snapshot : Snapshot) (metrics : Metrics)
    (anomalies : List Anomaly) : String :=
  String.intercalate " "
    (["Region " ++ region ++ " has " ++ toString metrics.aircraft ++
        " tracked aircraft as of " ++ snapshot.last_updated ++ "."] ++
      (if truthyMetric metrics.avg_altitude then
        ["Average altitude: " ++ fmtMetric metrics.avg_altitude ++ " m."] else []) ++
      (if truthyMetric metrics.avg_velocity then
        ["Average velocity: " ++ fmtMetric metrics.avg_velocity ++ " m/s."] else []) ++
      (if anomalies ≠ [] then
        ["Detected " ++ toString anomalies.length ++ " anomalies requiring follow-up."]
      else ["No anomalies detected in the last snapshot."]))

/-- One region's matching states in snapshot order, as payloads. -/
def snapshotMatches (region : String) (normalized : String) :
    Option Snapshot → List FindPayload
  | none => []
  | some snapshot =>
      (snapshot.states.filter (matchesCallsign normalized)).map fun st =>
        ⟨region, snapshot, st⟩

/-- "The first matching Flight State in the first matching region", regions
in lexicographic order: the specification's reading of the locator. -/
def firstMatch (store : List (String × Snapshot)) (normalized : String) :
    Option FindPayload :=
  ((listRegions store).flatMap fun region =>
    snapshotMatches region normalized (loadSnapshot store region)).head?

/-- A stored callsign that is null, empty, or whitespace-only. -/
def isBlankCallsign (o : Option String) : Bool := pyStrip (o.getD "") == ""

/-- One region's blank-callsign states in snapshot order, as payloads. -/
def snapshotBlanks (region : String) : Option Snapshot → List FindPayload
  | none => []
  | some snapshot =>
      (snapshot.states.filter fun st => isBlankCallsign st.callsign).map fun st =>
        ⟨region, snapshot, st⟩

/-- The first Flight State (lexicographic region order, then snapshot
order) whose stored callsign is null, empty, or whitespace-only. -/
def firstBlank (store : List (String × Snapshot)) : Option FindPayload :=
  ((listRegions store).flatMap fun region =>
    snapshotBlanks region (loadSnapshot store region)).head?

/-! ### Concrete instances used as counterexamples and witnesses -/

/-- A state with a present-but-zero latitude (the equator) and a present
longitude. -/
def stZeroLat : FlightState :=
  { icao24 := "abc123", longitude := some 10, latitude := some 0 }

/-- A state with both timestamps present, `time_position` being the epoch
instant `0`, and a latency of 100 seconds. -/
def stEpochTime : FlightState :=
  { icao24 := "def456", last_contact := some 100, time_position := some 0
    latitude := some 1, longitude := some 1 }

/-- A state with no callsign and a whitespace-padded `icao24`, flying fast
enough to produce an anomaly. -/
def stPaddedIcao : FlightState :=
  { icao24 := " AB12 ", velocity := some 300
    latitude := some 1, longitude := some 1 }

/-- A state whose optional telemetry is entirely absent. -/
def stAllNull : FlightState := { icao24 := "aaa111" }

/-- A snapshot holding only the all-null state. -/
def snapAllNull : Snapshot :=
  { region := "region1", last_updated := "2024-05-01T10:00:00Z"
    states := [stAllNull] }

/-- A state whose geometric altitude is present and exactly zero, with a
present velocity: its snapshot's average altitude is `0.0`. -/
def stZeroAlt : FlightState :=
  { icao24 := "bbb222", geo_altitude := some 0, velocity := some 100
    latitude := some 1, longitude := some 1 }

/-- A snapshot holding only the zero-altitude state. -/
def snapZeroAlt : Snapshot :=
  { region := "region1", last_updated := "2024-05-01T10:00:00Z"
    states := [stZeroAlt] }

/-- A state carrying the callsign "AB1". -/
def stAB1 : FlightState :=
  { icao24 := "ccc333", callsign := some "AB1", latitude := some 1
    longitude := some 1 }

/-- A state with a whitespace-only callsign. -/
def stBlankCallsign : FlightState :=
  { icao24 := "ddd444", callsign := some "  ", latitude := some 1
    longitude := some 1 }

/-- A demo snapshot for `region1`. -/
def demoSnapA : Snapshot :=
  { region := "region1", last_updated := "2024-05-01T10:00:00Z"
    states := [stAB1, stBlankCallsign] }

/-- A demo snapshot for `region2`. -/
def demoSnapB : Snapshot :=
  { region := "region2", last_updated := "2024-05-01T10:05:00Z"
    states := [stAllNull] }

/-- A demo store listing `region2`'s file before `region1`'s. -/
def demoStore : List (String × Snapshot) :=
  [("region2", demoSnapB), ("region1", demoSnapA)]

/-- A demo alerts collection. -/
def demoAlerts : AlertsResponse :=
  { last_updated := "2024-05-01T10:00:00Z"
    alerts := [{ id := "a1", region := "region1", type := "airspace"
                 severity := "low", message := "m", detected_at := "t" }] }

/-- An analysis carrying exactly 20 anomalies. -/
def demoAnalysis20 : Analysis :=
  { region := "region1", last_updated := "2024-05-01T10:00:00Z", bounds := []
    metrics := { aircraft := 0, avg_altitude := .null, avg_velocity := .null }
    anomalies := (List.range 20).map fun i =>
      ⟨"CS" ++ toString i, "High velocity", .int i⟩
    summary := "s" }

/-- A lookup that reports every callsign as not found (HTTP 404). -/
def lookup404 : String → Except FetchError FindPayload :=
  fun _ => .error (.status 404)

/-- A lookup that always fails with a corrupted-store error (HTTP 500). -/
def lookup500 : String → Except FetchError FindPayload :=
  fun _ => .error (.status 500)

/-- The input state of a demo pipeline run. -/
def demoS0 : GraphState :=
  { region := some "region1", callsign := some "AB1", question := some "q" }

/-- The state after the demo OPS stage. -/
def demoS1 : GraphState :=
  opsUpdate demoS0 "ops-report" (analyzeRegion "region1" demoSnapA) demoAlerts

/-- The state after the demo TRAVELER stage. -/
def demoS2 : GraphState :=
  travelerUpdate demoS1 "reply" (compactFlight notFoundContext)

/-! ### Helper lemmas -/

/-- Accumulating appends in a fold is concatenation in order. -/
theorem foldl_append_eq_flatten {α β : Type} (f : α → List β) :
    ∀ (l : List α) (init : List β),
      l.foldl (fun acc x => acc ++ f x) init = init ++ (l.map f).flatten := by
  intro l
  induction l with
  | nil => intro init; simp
  | cons x xs ih =>
      intro init
      simp [List.foldl_cons, ih, List.append_assoc]

/-- The anomaly loop emits each state's anomalies in state order. -/
theorem detectAnomalies_eq_flatten (states : List FlightState) :
    detectAnomalies states = (states.map anomaliesFor).flatten := by
  rw [detectAnomalies, foldl_append_eq_flatten anomaliesFor states []]
  exact List.nil_append _

/-- `find?` returns the head of the filtered list. -/
theorem find?_eq_head?_filter {α : Type} (p : α → Bool) :
    ∀ l : List α, l.find? p = (l.filter p).head? := by
  intro l
  induction l with
  | nil => rfl
  | cons x xs ih =>
      cases hx : p x
      · rw [List.find?_cons, List.filter_cons, hx, ih]
        simp
      · rw [List.find?_cons, List.filter_cons, hx]
        simp

/-- Taking the head of per-element optional results equals taking the head
of the concatenation of per-element lists, whenever each optional result is
the head of the corresponding list. -/
theorem head?_filterMap_eq_head?_flatMap {α β : Type}
    (f : α → Option β) (g : α → List β) (hfg : ∀ a, f a = (g a).head?) :
    ∀ l : List α, (l.filterMap f).head? = (l.flatMap g).head? := by
  intro l
  induction l with
  | nil => rfl
  | cons x xs ih =>
      rcases hx : f x with _ | b
      · have hg : g x = [] := by
          have := (hfg x).symm.trans hx
          exact List.head?_eq_none_iff.mp this
        simp [List.filterMap_cons, hx, List.flatMap_cons, hg, ih]
      · have hg : (g x).head? = some b := (hfg x).symm.trans hx
        rcases hgx : g x with _ | ⟨c, cs⟩
        · rw [hgx] at hg; exact absurd hg (by simp)
        · rw [hgx] at hg
          simp only [List.head?_cons, Option.some.injEq] at hg
          simp [List.filterMap_cons, hx, List.flatMap_cons, hgx, hg]

/-- The locator's search is the specification's first-match search. -/
theorem findNormalized_eq_firstMatch (store : List (String × Snapshot))
    (normalized : String) :
    findNormalized store normalized = firstMatch store normalized := by
  rw [findNormalized, firstMatch]
  apply head?_filterMap_eq_head?_flatMap
  intro region
  rcases hl : loadSnapshot store region with _ | snapshot
  · simp [snapshotMatches]
  · rw [snapshotMatches]
    simp only [Option.some_bind]
    rw [find?_eq_head?_filter]
    exact (List.head?_map _ _).symm

/-- The code's velocity check equals the claimed velocity rule: a velocity
above 280 is in particular nonzero. -/
theorem velocityAnomaly_eq_claimed (cs : String) (v? : Option ℚ) :
    velocityAnomaly cs v? = claimedVelocityAnomaly cs v? := by
  rcases v? with _ | v
  · rfl
  · rw [velocityAnomaly, claimedVelocityAnomaly]
    by_cases h : v > 280
    · rw [if_pos ⟨ne_of_gt (lt_trans (by norm_num) h), h⟩, if_pos h]
    · rw [if_neg (fun hh => h hh.2), if_neg h]

/-- The code's coordinate check equals the amended coordinate rule. -/
theorem coordsAnomaly_eq_amended (cs : String) (lat lon : Option ℚ) :
    coordsAnomaly cs lat lon = amendedCoordsAnomaly cs lat lon := by
  rw [coordsAnomaly, amendedCoordsAnomaly]
  refine if_congr ?_ rfl rfl
  rcases lat with _ | a <;> rcases lon with _ | b <;> simp [truthyQ]

/-- Each state's anomalies are the amended rules' anomalies. -/
theorem anomaliesFor_eq_amended (st : FlightState) :
    anomaliesFor st = amendedAnomalies st := by
  simp only [anomaliesFor, amendedAnomalies, velocityAnomaly_eq_claimed,
    coordsAnomaly_eq_amended]

/-- Every anomaly a state produces records that state's computed
callsign. -/
theorem anomaliesFor_callsign (st : FlightState) :
    ((anomaliesFor st).all fun a => a.callsign == pyCallsign st) = true := by
  simp only [anomaliesFor, List.all_append, Bool.and_eq_true]
  refine ⟨⟨⟨?_, ?_⟩, ?_⟩, ?_⟩
  · rcases st.velocity with _ | v
    · rfl
    · rw [velocityAnomaly]
      split_ifs <;> simp
  · rcases st.baro_altitude with _ | b
    · rfl
    · rw [altitudeAnomaly]
      split_ifs <;> simp
  · rcases st.last_contact with _ | lc
    · rfl
    · rcases st.time_position with _ | tp
      · rfl
      · rw [staleAnomaly]
        split_ifs <;> simp
  · rw [coordsAnomaly]
    split_ifs <;> simp

/-- Over a nonempty column list, the code's average equals the amended
average. -/
theorem columnAvg_eq_amendedAvg (vals : List (Option ℚ)) (h : vals ≠ []) :
    columnAvg vals = amendedAvg vals := by
  simp only [columnAvg, amendedAvg, if_neg h]
  exact if_congr List.isEmpty_iff rfl rfl

/-- The code's metrics equal the amended claim's metrics. -/
theorem computeMetrics_eq_amended (states : List FlightState) :
    computeMetrics states = amendedMetrics states := by
  rcases states with _ | ⟨st, rest⟩
  · rfl
  · rw [computeMetrics, amendedMetrics]
    rw [if_neg (by simp : ¬(((st :: rest).isEmpty) = true))]
    rw [columnAvg_eq_amendedAvg _ (by simp), columnAvg_eq_amendedAvg _ (by simp)]

/-- The code's callsign computation is the amended fallback chain. -/
theorem pyCallsign_eq_amended (st : FlightState) :
    pyCallsign st = amendedCallsign st := by
  rw [pyCallsign, amendedCallsign]
  split_ifs
  · rfl
  · rfl
  · decide

/-- Uppercasing a string yields the empty string iff it was empty. -/
theorem pyUpper_eq_empty_iff (s : String) : pyUpper s = "" ↔ s = "" := by
  constructor
  · intro h
    have hd : s.data.map Char.toUpper = [] := by
      have hc := congrArg String.data h
      rw [pyUpper] at hc
      exact hc
    have hnil : s.data = [] := List.map_eq_nil_iff.mp hd
    cases s with
    | mk data =>
        simp only at hnil
        rw [hnil]
  · intro h
    rw [h]
    rfl

/-- Against the empty normalized callsign, the locator's match test accepts
exactly the blank stored callsigns. -/
theorem matchesCallsign_empty (st : FlightState) :
    matchesCallsign "" st = isBlankCallsign st.callsign := by
  rw [Bool.eq_iff_iff]
  simp [matchesCallsign, isBlankCallsign, pyUpper_eq_empty_iff]

/-- A region's matches against the empty normalized callsign are its blank
states. -/
theorem snapshotMatches_empty (region : String) (o : Option Snapshot) :
    snapshotMatches region "" o = snapshotBlanks region o := by
  rcases o with _ | snapshot
  · rfl
  · rw [snapshotMatches, snapshotBlanks,
      List.filter_congr fun st _ => matchesCallsign_empty st]

/-- Under unique region ids, the stored snapshot of a listed entry loads
back. -/
theorem loadSnapshot_of_nodup {store : List (String × Snapshot)}
    (hnodup : (store.map Prod.fst).Nodup) {entry : String × Snapshot}
    (hmem : entry ∈ store) : loadSnapshot store entry.fst = some entry.snd := by
  induction store with
  | nil => cases hmem
  | cons hd tl ih =>
      rcases List.mem_cons.mp hmem with h | h
      · subst h
        rw [loadSnapshot, List.find?_cons_of_pos _ (by simp)]
        rfl
      · have hne : ¬(hd.fst == entry.fst) = true := by
          intro hbeq
          have heq : hd.fst = entry.fst := by simpa using hbeq
          have hmem2 : entry.fst ∈ tl.map Prod.fst := List.mem_map_of_mem _ h
          rw [← heq] at hmem2
          exact (List.nodup_cons.mp hnodup).1 hmem2
        rw [loadSnapshot, List.find?_cons_of_neg _ (by exact hne)]
        have hih := ih (List.nodup_cons.mp hnodup).2 h
        rw [loadSnapshot] at hih
        exact hih

/-! ### Claim theorems -/

/-- C1 as stated fails on the code: a present-but-zero latitude (falsy in
Python) produces a "Missing coordinates" anomaly the claim forbids, and a
present-but-zero `time_position` (falsy) suppresses the "Stale telemetry"
anomaly the claim requires. -/
theorem c1_anomaly_rules_counterexample :
    detectAnomalies [stZeroLat] ≠ ([stZeroLat].map claimedAnomalies).flatten ∧
    detectAnomalies [stZeroLat] =
      [⟨"abc123", "Missing coordinates", .str "n/a"⟩] ∧
    claimedAnomalies stZeroLat = [] ∧
    detectAnomalies [stEpochTime] ≠
      ([stEpochTime].map claimedAnomalies).flatten ∧
    detectAnomalies [stEpochTime] = [] ∧
    claimedAnomalies stEpochTime =
      [⟨"def456", "Stale telemetry", .int 100⟩] := by
  decide

/-- C1 (amended): `analyze` emits per state exactly the anomalies of the
four rules evaluated independently, where — matching Python truthiness —
the "Stale telemetry" rule requires both timestamps present and nonzero
with latency > 45, and the "Missing coordinates" rule fires iff latitude or
longitude is missing or zero; the velocity and altitude rules are as the
claim states them. -/
theorem c1_anomaly_rules (states : List FlightState) :
    detectAnomalies states = (states.map amendedAnomalies).flatten := by
  rw [detectAnomalies_eq_flatten,
    show anomaliesFor = amendedAnomalies from funext anomaliesFor_eq_amended]

/-- C9 as stated fails on the code: for a state with no callsign the
recorded value is the *trimmed* `icao24`, not the `icao24` as stored. -/
theorem c9_callsign_fallback_counterexample :
    (detectAnomalies [stPaddedIcao]).map Anomaly.callsign = ["AB12"] ∧
    claimedCallsign stPaddedIcao = " AB12 " ∧
    "AB12" ≠ " AB12 " := by
  decide

/-- C9 (amended): the callsign recorded in every anomaly a state produces
is the fallback chain with the selected value trimmed: the trimmed callsign
when the state has a non-empty one, otherwise the trimmed `icao24` when
non-empty, otherwise the literal "UNKNOWN". -/
theorem c9_callsign_fallback (st : FlightState) :
    pyCallsign st = amendedCallsign st ∧
    ((anomaliesFor st).all fun a => a.callsign == amendedCallsign st) = true := by
  refine ⟨pyCallsign_eq_amended st, ?_⟩
  rw [← pyCallsign_eq_amended st]
  exact anomaliesFor_callsign st

/-- C4 as stated fails on the code: for a nonempty snapshot whose states
all lack a telemetry field, the pandas frame still has the column (the
serialized states carry every key), so the average is `NaN` — not null as
the claim's "null if the field is absent across all states" requires. -/
theorem c4_metrics_counterexample :
    (analyzeRegion "region1" snapAllNull).metrics ≠
      claimedMetrics snapAllNull.states ∧
    (analyzeRegion "region1" snapAllNull).metrics =
      { aircraft := 1, avg_altitude := .nan, avg_velocity := .nan } ∧
    claimedMetrics snapAllNull.states =
      { aircraft := 1, avg_altitude := .null, avg_velocity := .null } := by
  decide

/-- C4 (amended): `aircraft` counts the states; a zero-state snapshot
yields aircraft 0 with both averages null (and no exception — the metrics
function is total); each average over a nonempty snapshot is the rounded
mean of the present values, and `NaN` — not null — when the field has a
value in no state. -/
theorem c4_metrics (region : String) (snapshot : Snapshot) :
    (analyzeRegion region snapshot).metrics = computeMetrics snapshot.states ∧
    computeMetrics snapshot.states = amendedMetrics snapshot.states ∧
    (computeMetrics snapshot.states).aircraft = snapshot.states.length ∧
    computeMetrics [] =
      { aircraft := 0, avg_altitude := .null, avg_velocity := .null } := by
  refine ⟨rfl, computeMetrics_eq_amended _, ?_, rfl⟩
  rw [computeMetrics_eq_amended]
  rfl

/-- C5 as stated fails on the code: a snapshot whose average altitude is
exactly `0.0` (non-null) omits the altitude sentence, because the code
guards it with Python truthiness, not a null check. -/
theorem c5_summary_counterexample :
    (analyzeRegion "region1" snapZeroAlt).summary ≠
      claimedSummary "region1" snapZeroAlt
        (analyzeRegion "region1" snapZeroAlt).metrics
        (analyzeRegion "region1" snapZeroAlt).anomalies := by
  have hm : computeMetrics snapZeroAlt.states =
      { aircraft := 1, avg_altitude := .num 0, avg_velocity := .num 100 } := by
    rw [show computeMetrics snapZeroAlt.states
        = computeMetrics [stZeroAlt] from rfl, computeMetrics]
    rw [if_neg (by decide : ¬([stZeroAlt].isEmpty = true))]
    have hg : [stZeroAlt].map (·.geo_altitude) = [some (0:ℚ)] := rfl
    have hv : [stZeroAlt].map (·.velocity) = [some (100:ℚ)] := rfl
    rw [hg, hv]
    have h0 : columnAvg [some (0:ℚ)] = .num 0 := by
      rw [columnAvg]
      have hs : ([some (0:ℚ)].filterMap id) = [0] := rfl
      rw [hs]
      rw [if_neg (by decide : ¬(([(0:ℚ)].isEmpty) = true))]
      have hq : ([(0:ℚ)].sum / (([(0:ℚ)].length : ℕ) : ℚ)) = 0 := by simp
      rw [hq, round2, roundHalfEven]
      norm_num
    have h100 : columnAvg [some (100:ℚ)] = .num 100 := by
      rw [columnAvg]
      have hs : ([some (100:ℚ)].filterMap id) = [100] := rfl
      rw [hs]
      rw [if_neg (by decide : ¬(([(100:ℚ)].isEmpty) = true))]
      have hq : ([(100:ℚ)].sum / (([(100:ℚ)].length : ℕ) : ℚ)) = 100 := by simp
      rw [hq, round2, roundHalfEven]
      norm_num
    rw [h0, h100]
    rfl
  have ha : detectAnomalies snapZeroAlt.states = [] := by decide
  have hf100 : fmtMetric (MetricVal.num 100) = "100.0" := by
    rw [fmtMetric]
    rw [if_neg (by norm_num : ¬((100:ℚ) < 0))]
    rw [fmtHundredths]
    rw [show (⌊(100:ℚ) * 100⌋) = 10000 from by norm_num]
    decide
  have hf0 : fmtMetric (MetricVal.num 0) = "0.0" := by
    rw [fmtMetric]
    rw [if_neg (by norm_num : ¬((0:ℚ) < 0))]
    rw [fmtHundredths]
    rw [show (⌊(0:ℚ) * 100⌋) = 0 from by norm_num]
    decide
  rw [show (analyzeRegion "region1" snapZeroAlt).summary
      = buildSummary "region1" snapZeroAlt
        (computeMetrics snapZeroAlt.states)
        (detectAnomalies snapZeroAlt.states) from rfl]
  rw [show (analyzeRegion "region1" snapZeroAlt).metrics
      = computeMetrics snapZeroAlt.states from rfl]
  rw [show (analyzeRegion "region1" snapZeroAlt).anomalies
      = detectAnomalies snapZeroAlt.states from rfl]
  rw [hm, ha, buildSummary, claimedSummary]
  simp only [truthyMetric, hf0, hf100]
  decide

/-- C5 (amended): the summary is a deterministic composition in fixed
order — the aircraft-count-plus-timestamp sentence, an average-altitude
sentence included iff `avg_altitude` is truthy (non-null and nonzero; `NaN`
included), an average-velocity sentence under the same test, then the
anomaly-count sentence when anomalies exist, else the fixed "no anomalies"
sentence. -/
theorem c5_summary (region : String) (snapshot : Snapshot) :
    (∀ (metrics : Metrics) (anomalies : List Anomaly),
      buildSummary region snapshot metrics anomalies =
        amendedSummary region snapshot metrics anomalies) ∧
    (analyzeRegion region snapshot).summary =
      amendedSummary region snapshot (computeMetrics snapshot.states)
        (detectAnomalies snapshot.states) := by
  have h : ∀ (metrics : Metrics) (anomalies : List Anomaly),
      buildSummary region snapshot metrics anomalies =
        amendedSummary region snapshot metrics anomalies := by
    intro metrics anomalies
    rw [buildSummary, amendedSummary]
    split_ifs <;> simp_all [List.isEmpty_iff]
  exact ⟨h, h _ _⟩

/-- C3: `find_by_callsign` normalizes its argument (trim + uppercase)
before comparison, iterates regions in lexicographic order of region id,
and returns the first matching Flight State in the first matching region —
so "abc123", "ABC123" and " ABC123 " yield the same match, and a callsign
present in both "region1" and "region2" always reports "region1". -/
theorem c3_locator_order :
    (∀ store, findByCallsign store "abc123" = findByCallsign store "ABC123" ∧
      findByCallsign store " ABC123 " = findByCallsign store "ABC123") ∧
    (∀ store c, findByCallsign store c = firstMatch store (normalizeCallsign c)) ∧
    (∀ (snap1 snap2 : Snapshot) (c : String) (st1 st2 : FlightState),
      st1 ∈ snap1.states → matchesCallsign (normalizeCallsign c) st1 = true →
      st2 ∈ snap2.states → matchesCallsign (normalizeCallsign c) st2 = true →
      (findByCallsign [("region2", snap2), ("region1", snap1)] c).map
        FindPayload.region = some "region1") := by
  refine ⟨?_, ?_, ?_⟩
  · intro store
    constructor
    · rw [findByCallsign, findByCallsign,
        show normalizeCallsign "abc123" = normalizeCallsign "ABC123" from by decide]
    · rw [findByCallsign, findByCallsign,
        show normalizeCallsign " ABC123 " = normalizeCallsign "ABC123" from by decide]
  · intro store c
    rw [findByCallsign]
    exact findNormalized_eq_firstMatch store (normalizeCallsign c)
  · intro snap1 snap2 c st1 st2 h1 hm1 h2 hm2
    rw [findByCallsign, findNormalized_eq_firstMatch]
    have hlr : listRegions [("region2", snap2), ("region1", snap1)] =
        ["region1", "region2"] := by
      rw [listRegions,
        show List.map Prod.fst [("region2", snap2), ("region1", snap1)] =
          ["region2", "region1"] from rfl]
      decide
    have hls : loadSnapshot [("region2", snap2), ("region1", snap1)] "region1" =
        some snap1 := by
      rw [loadSnapshot]
      rw [List.find?_cons_of_neg _ (by simp), List.find?_cons_of_pos _ (by simp)]
      rfl
    rw [firstMatch, hlr]
    simp only [List.flatMap_cons, List.flatMap_nil, List.append_nil]
    rw [hls, snapshotMatches]
    obtain ⟨y, ys, hy⟩ : ∃ y ys,
        snap1.states.filter (matchesCallsign (normalizeCallsign c)) = y :: ys := by
      rcases hfil : snap1.states.filter (matchesCallsign (normalizeCallsign c)) with
        _ | ⟨y, ys⟩
      · exact absurd (hfil ▸ List.mem_filter.mpr ⟨h1, hm1⟩) (List.not_mem_nil st1)
      · exact ⟨y, ys, rfl⟩
    rw [hy]
    simp

/-- Witness for C3's hypotheses at a concrete store. -/
theorem c3_locator_order_witness :
    stAB1 ∈ demoSnapA.states ∧
    matchesCallsign (normalizeCallsign "ab1") stAB1 = true ∧
    (findByCallsign [("region2", demoSnapA), ("region1", demoSnapA)] "ab1").map
      FindPayload.region = some "region1" := by
  refine ⟨by decide, by decide, ?_⟩
  exact c3_locator_order.2.2 demoSnapA demoSnapA "ab1" stAB1 stAB1
    (by decide) (by decide) (by decide) (by decide)

/-- C8: when no alert data exists, `get_alerts` returns the default value
`{last_updated: "", alerts: []}` without raising — the empty default is a
normal result, not a failure. -/
theorem c8_alerts_default :
    loadAlerts AlertsFile.absent = Except.ok { last_updated := "", alerts := [] } :=
  rfl

/-- C6: analysis compaction retains region, last_updated, metrics, and
summary, truncates anomalies to a stable prefix of at most the first 15 (20
anomalies compact to exactly the first 15 in order), and alerts compaction
retains at most the first 10 alerts under the same truncation policy. -/
theorem c6_compaction (analysis : Analysis) (alerts : AlertsResponse) :
    (compactAnalysis analysis alerts).region = analysis.region ∧
    (compactAnalysis analysis alerts).last_updated = analysis.last_updated ∧
    (compactAnalysis analysis alerts).metrics = analysis.metrics ∧
    (compactAnalysis analysis alerts).summary = analysis.summary ∧
    (compactAnalysis analysis alerts).anomalies = analysis.anomalies.take 15 ∧
    (compactAnalysis analysis alerts).anomalies.length ≤ 15 ∧
    (compactAnalysis analysis alerts).anomalies ++ analysis.anomalies.drop 15 =
      analysis.anomalies ∧
    (analysis.anomalies.length = 20 →
      (compactAnalysis analysis alerts).anomalies.length = 15) ∧
    (compactAnalysis analysis alerts).alerts = alerts.alerts.take 10 ∧
    (compactAnalysis analysis alerts).alerts.length ≤ 10 ∧
    (compactAnalysis analysis alerts).alerts ++ alerts.alerts.drop 10 =
      alerts.alerts := by
  refine ⟨rfl, rfl, rfl, rfl, rfl, ?_, ?_, ?_, rfl, ?_, ?_⟩
  · simp [compactAnalysis]
  · simp [compactAnalysis]
  · intro h20
    simp [compactAnalysis, List.length_take, h20]
  · simp [compactAnalysis]
  · simp [compactAnalysis]

/-- Witness for C6 at a concrete analysis holding 20 anomalies. -/
theorem c6_compaction_witness :
    demoAnalysis20.anomalies.length = 20 ∧
    (compactAnalysis demoAnalysis20 demoAlerts).anomalies.length = 15 := by
  refine ⟨by decide, ?_⟩
  exact (c6_compaction demoAnalysis20 demoAlerts).2.2.2.2.2.2.2.1 (by decide)

/-- C2: pipeline state accumulates monotonically — each stage returns its
input state plus its own additions (OPS adds ops_report, ops_structured,
alerts, last_updated; TRAVELER adds traveler_response, flight_context), so
after the TRAVELER stage every key written by the OPS stage and every input
key is still present with an unchanged value. -/
theorem c2_state_accumulation
    (snapshotOf : String → Snapshot) (alertsResp : AlertsResponse)
    (lookup : String → Except FetchError FindPayload)
    (report reply : String) (s0 s1 s2 : GraphState)
    (h1 : opsNode snapshotOf alertsResp report s0 = .ok s1)
    (h2 : travelerNode lookup reply s1 = .ok s2) :
    (∃ a : Analysis, s1 = opsUpdate s0 report a alertsResp) ∧
    (∃ fc : CompactFlight, s2 = travelerUpdate s1 reply fc) ∧
    s2.region = s0.region ∧ s2.callsign = s0.callsign ∧
    s2.question = s0.question ∧ s2.errors = s0.errors ∧
    s2.ops_report = some report ∧
    s2.ops_structured = s1.ops_structured ∧ s2.alerts = some alertsResp ∧
    s2.last_updated = s1.last_updated := by
  rw [opsNode] at h1
  split at h1
  · exact absurd h1 (by simp)
  · simp only [Except.ok.injEq] at h1
    subst h1
    rw [travelerNode] at h2
    split at h2
    · exact absurd h2 (by simp)
    · split at h2
      · exact absurd h2 (by simp)
      · simp only [Except.ok.injEq] at h2
        subst h2
        exact ⟨⟨_, rfl⟩, ⟨_, rfl⟩, rfl, rfl, rfl, rfl, rfl, rfl, rfl, rfl⟩

/-- Witness for C2: a concrete run in which both stages succeed. -/
theorem c2_state_accumulation_witness :
    opsNode (fun _ => demoSnapA) demoAlerts "ops-report" demoS0 = .ok demoS1 ∧
    travelerNode lookup404 "reply" demoS1 = .ok demoS2 ∧
    (demoS2.region = demoS0.region ∧ demoS2.ops_report = some "ops-report" ∧
      demoS2.alerts = some demoAlerts) := by
  have h := c2_state_accumulation (fun _ => demoSnapA) demoAlerts lookup404
    "ops-report" "reply" demoS0 demoS1 demoS2 rfl rfl
  exact ⟨rfl, rfl, h.2.2.1, h.2.2.2.2.2.2.1, h.2.2.2.2.2.2.2.2.1⟩

/-- C7: a "not found" flight lookup (HTTP 404) still yields a user-facing
response path — the flight context carries the "please verify the callsign"
status instead of raising, and the pipeline run completes; every other
lookup failure propagates and aborts the pipeline run. -/
theorem c7_lookup_failure_semantics
    (lookup : String → Except FetchError FindPayload)
    (snapshotOf : String → Snapshot) (alertsResp : AlertsResponse)
    (report reply : String) (region callsign question : String) :
    (lookup callsign = .error (.status 404) →
      getFlightContext lookup callsign = .ok notFoundContext ∧
      notFoundContext.status =
        "Flight not found in latest snapshots. Please verify the callsign." ∧
      ∃ res, runPipeline snapshotOf alertsResp lookup report reply
          region callsign question = .ok res ∧
        res.flight_context = some (compactFlight notFoundContext) ∧
        res.traveler_response = some reply) ∧
    (∀ e : FetchError, lookup callsign = .error e → e ≠ .status 404 →
      getFlightContext lookup callsign = .error e ∧
      runPipeline snapshotOf alertsResp lookup report reply
          region callsign question = .error (.fetch e)) := by
  constructor
  · intro h404
    have hctx : getFlightContext lookup callsign = .ok notFoundContext := by
      rw [getFlightContext, h404]
      simp
    have hrun : runPipeline snapshotOf alertsResp lookup report reply
        region callsign question =
        .ok { ops_report := some report
              traveler_response := some reply
              ops_structured :=
                some (analyzeRegion region (snapshotOf region))
              flight_context := some (compactFlight notFoundContext)
              alerts := some alertsResp } := by
      rw [runPipeline]
      simp only [opsNode, travelerNode, opsUpdate, travelerUpdate, hctx]
    exact ⟨hctx, rfl, ⟨_, hrun, rfl, rfl⟩⟩
  · intro e herr hne
    have hctx : getFlightContext lookup callsign = .error e := by
      rw [getFlightContext, herr]
      rcases e with code | _
      · have hcode : code ≠ 404 := fun h => hne (by rw [h])
        simp [hcode]
      · rfl
    refine ⟨hctx, ?_⟩
    rw [runPipeline]
    simp only [opsNode, travelerNode, opsUpdate, hctx]

/-- Witness for C7: a 404 lookup completes the run with the not-found
context, and a 500 lookup aborts it. -/
theorem c7_lookup_failure_semantics_witness :
    lookup404 "AB1" = .error (.status 404) ∧
    getFlightContext lookup404 "AB1" = .ok notFoundContext ∧
    lookup500 "AB1" = .error (.status 500) ∧
    FetchError.status 500 ≠ FetchError.status 404 ∧
    getFlightContext lookup500 "AB1" = .error (.status 500) ∧
    runPipeline (fun _ => demoSnapA) demoAlerts lookup500 "r" "t"
      "region1" "AB1" "q" = .error (.fetch (.status 500)) := by
  have h404 := (c7_lookup_failure_semantics lookup404 (fun _ => demoSnapA)
    demoAlerts "r" "t" "region1" "AB1" "q").1 rfl
  have h500 := (c7_lookup_failure_semantics lookup500 (fun _ => demoSnapA)
    demoAlerts "r" "t" "region1" "AB1" "q").2 (.status 500) rfl (by decide)
  exact ⟨rfl, h404.1, rfl, by decide, h500.1, h500.2⟩

/-- C10: a callsign argument that is empty or whitespace-only normalizes to
the empty string, so `find_by_callsign` returns — as a successful match,
not "not found" — the first Flight State (lexicographic region order, then
snapshot order) whose stored callsign is null, empty, or whitespace-only,
whenever any region contains such a state. -/
theorem c10_blank_lookup (store : List (String × Snapshot)) (c : String)
    (hblank : pyStrip c = "") :
    findByCallsign store c = firstBlank store ∧
    ((store.map Prod.fst).Nodup →
      ∀ entry ∈ store, ∀ st ∈ entry.snd.states,
        isBlankCallsign st.callsign = true →
        (findByCallsign store c).isSome = true) := by
  have hnorm : normalizeCallsign c = "" := by
    rw [normalizeCallsign, hblank]
    rfl
  have heq : findByCallsign store c = firstBlank store := by
    rw [findByCallsign, hnorm, findNormalized_eq_firstMatch, firstMatch, firstBlank]
    rw [show (fun region => snapshotMatches region "" (loadSnapshot store region)) =
        (fun region => snapshotBlanks region (loadSnapshot store region)) from
      funext fun region => snapshotMatches_empty region (loadSnapshot store region)]
  refine ⟨heq, ?_⟩
  intro hnodup entry hentry st hst hblankst
  rw [heq, firstBlank]
  rcases hfm : (listRegions store).flatMap
      (fun region => snapshotBlanks region (loadSnapshot store region)) with
    _ | ⟨y, ys⟩
  · exfalso
    have hall := List.flatMap_eq_nil_iff.mp hfm
    have hrmem : entry.fst ∈ listRegions store := by
      rw [listRegions]
      exact ((List.perm_insertionSort _ _).mem_iff).mpr
        (List.mem_map_of_mem _ hentry)
    have hload : loadSnapshot store entry.fst = some entry.snd :=
      loadSnapshot_of_nodup hnodup hentry
    have hzero := hall entry.fst hrmem
    rw [hload, snapshotBlanks] at hzero
    have hmem : st ∈ entry.snd.states.filter fun st =>
        isBlankCallsign st.callsign :=
      List.mem_filter.mpr ⟨hst, hblankst⟩
    rw [List.map_eq_nil_iff.mp hzero] at hmem
    exact List.not_mem_nil st hmem
  · rfl

/-- Witness for C10 at a concrete store containing a whitespace-only
callsign. -/
theorem c10_blank_lookup_witness :
    pyStrip " " = "" ∧
    findByCallsign demoStore " " = firstBlank demoStore ∧
    (findByCallsign demoStore " ").isSome = true := by
  have h := c10_blank_lookup demoStore " " (by decide)
  exact ⟨by decide, h.1,
    h.2 (by decide) ("region1", demoSnapA) (by decide) stBlankCallsign
      (by decide) (by decide)⟩

end Airspace
